import Mathlib

/-!
Shallow embedding of backend/main.py of the neurotrain-transcribe repository.

The transcribe handler (lines 62-140) is modelled as a pure function over an
explicit environment describing the outcomes of its external collaborators
(the temporary-file name chosen by tempfile, whether the byte write succeeds,
the result of the ffmpeg subprocess, the result of the recognizer call, and
whether os.remove succeeds), together with an explicit file-system state given
as the list of existing paths.  The module-level configuration code
(lines 13-34) and the health endpoints (lines 48-60) are modelled with an
explicit table of module-global name bindings, because the source references
the undefined name tiny there.
-/

namespace NeuroTrain

/-- Python float values (the recognizer-reported duration) are only passed
through verbatim by the handler, never computed with; they are modelled as
rationals. -/
abbrev PyFloat := Rat

/-- A Python exception as far as the handler can observe it: either a
structured starlette/fastapi HTTPException carrying a status code and a
detail string, a NameError for an undefined global name, or any other
exception reduced to its message string. -/
inductive Exc where
  | httpExc (statusCode : Nat) (detail : String)
  | nameError (name : String)
  | pyErr (msg : String)
deriving DecidableEq, Repr

/-- Python str(e).  For a starlette HTTPException the __str__ method returns
the status code, a colon and the detail (starlette versions since 0.25; in
older versions str(e) is the empty string, which differs from the detail just
the same).  For other exceptions the message itself. -/
def strExc : Exc → String
  | .httpExc code detail => toString code ++ ": " ++ detail
  | .nameError n => "name " ++ n ++ " is not defined"
  | .pyErr msg => msg

/-- Result of subprocess.run for the ffmpeg invocation (lines 91-97):
exit status, captured stderr, and whether the run left an output file at
wav_path (ffmpeg writes the output file on success and may or may not have
created it when it fails). -/
structure ConvResult where
  returncode : Int
  stderr : String
  wavCreated : Bool
deriving DecidableEq, Repr

/-- Result dictionary of model.transcribe (line 105): the text entry, the
optional language entry read with result.get at line 112, and the optional
duration entry read with result.get at line 118. -/
structure RecognizerResult where
  text : String
  language : Option String
  duration : Option PyFloat
deriving DecidableEq, Repr

/-- Environment of one request: the outcomes of every external operation the
handler performs.  convRun and transcribeRes are .error when the call raises
(with the str of the raised exception), .ok when it returns. -/
structure Env where
  tmpName : String
  writeOk : Bool
  writeErrMsg : String
  convRun : Except String ConvResult
  transcribeRes : Except String RecognizerResult
  removeOk : String → Bool

/-- TranscriptionResponse model of lines 36-41. -/
structure TranscriptionResponse where
  transcript : String
  language : String
  tldr : String
  duration : Option PyFloat := none
  status : String := "success"
deriving DecidableEq, Repr

/-- HealthResponse model of lines 43-46. -/
structure HealthResponse where
  status : String
  model : String
  version : String := "1.0.0"
deriving DecidableEq, Repr

/-- Arguments of the ffmpeg invocation at lines 91-97. -/
structure ConverterCall where
  inputPath : String
  outputPath : String
  sampleRate : Nat
  channels : Nat
  format : String
deriving DecidableEq, Repr

/-- Arguments of the model.transcribe invocation at lines 105-109. -/
structure RecognizerCall where
  audioPath : String
  language : Option String
  fp16 : Bool
deriving DecidableEq, Repr

/-- Observable outcome of one request to the transcribe handler: the result
(the returned response, or the exception leaving the handler), the final
file-system state, the list of temporary entries the request created, the
log lines, the file writes performed, and the external calls made. -/
structure Outcome where
  result : Except Exc TranscriptionResponse
  fs : List String
  created : List String
  log : List String
  writes : List (String × List Nat)
  converterCalls : List ConverterCall
  recognizerCalls : List RecognizerCall

/-- Intermediate state at the end of the try body (lines 81-127): its result,
file system, trace, and the two nullable path variables the finally block
reads. -/
structure TryOut where
  res : Except Exc TranscriptionResponse
  fs : List String
  created : List String
  log : List String
  writes : List (String × List Nat)
  convCalls : List ConverterCall
  recogCalls : List RecognizerCall
  tmpInputPath : Option String
  wavPath : Option String

/-- File creation: the path becomes an existing entry. -/
def fsCreate (p : String) (fs : List String) : List String :=
  if p ∈ fs then fs else p :: fs

/-- Python str.strip of line 111: remove leading and trailing whitespace
characters.  (ASCII whitespace; Python also strips some other Unicode space
characters, which no claim depends on.) -/
def pyStrip (s : String) : String :=
  ⟨((s.data.dropWhile Char.isWhitespace).reverse.dropWhile Char.isWhitespace).reverse⟩

/-- Fuel-driven worker for Python str.replace: scan left to right, replace
each leftmost non-overlapping occurrence of the pattern.  The fuel is the
length of the scanned list, which bounds the number of steps whenever the
pattern is nonempty. -/
def replaceFuel (p r : List Char) : Nat → List Char → List Char
  | _, [] => []
  | 0, l => l
  | fuel + 1, c :: cs =>
    if p.isPrefixOf (c :: cs) then r ++ replaceFuel p r fuel ((c :: cs).drop p.length)
    else c :: replaceFuel p r fuel cs

/-- Python str.replace (line 88), faithful for nonempty patterns such as the
".ogg" used by the handler. -/
def pyReplace (s pat rep : String) : String :=
  ⟨replaceFuel pat.data rep.data s.data.length s.data⟩

/-- Line 88: wav_path = tmp_input_path.replace(".ogg", ".wav"). -/
def wavOf (tmpName : String) : String := pyReplace tmpName ".ogg" ".wav"

/-- One iteration of the cleanup loop of lines 135-140: if the path variable
is set and the path exists, attempt os.remove; a failing removal is swallowed
by the bare except at lines 139-140. -/
def cleanup1 (env : Env) (p : Option String) (fs : List String) : List String :=
  match p with
  | none => fs
  | some path =>
    if path ∈ fs then (if env.removeOk path then fs.erase path else fs) else fs

/-- The finally block of lines 133-140: best-effort removal of
tmp_input_path and then wav_path. -/
def cleanup (env : Env) (tmpInputPath wavPath : Option String) (fs : List String) :
    List String :=
  cleanup1 env wavPath (cleanup1 env tmpInputPath fs)

/-- The try body, lines 81-127.  NamedTemporaryFile at line 83 creates the
file immediately; if the write of the uploaded bytes at line 84 raises, the
with block exits with tmp_input_path still None (the assignment at line 85
never ran), so the finally block has no recorded path.  On a successful
write, wav_path is derived at line 88, ffmpeg runs at lines 91-97, a nonzero
exit raises HTTPException(500, "Audio conversion failed") at line 101, and
otherwise the recognizer runs at lines 105-109 and the response is shaped at
lines 111-127. -/
def tryBlock (contents : List Nat) (language : Option String) (env : Env)
    (fs0 : List String) : TryOut :=
  let fs1 := fsCreate env.tmpName fs0
  if env.writeOk then
    let wav := wavOf env.tmpName
    let cCall : ConverterCall :=
      { inputPath := env.tmpName, outputPath := wav, sampleRate := 16000,
        channels := 1, format := "wav" }
    match env.convRun with
    | .error msg =>
      { res := .error (.pyErr msg), fs := fs1, created := [env.tmpName], log := []
        writes := [(env.tmpName, contents)], convCalls := [cCall], recogCalls := []
        tmpInputPath := some env.tmpName, wavPath := some wav }
    | .ok cr =>
      let fs2 := if cr.wavCreated then fsCreate wav fs1 else fs1
      let created2 := if cr.wavCreated then [env.tmpName, wav] else [env.tmpName]
      if cr.returncode ≠ 0 then
        { res := .error (.httpExc 500 "Audio conversion failed"), fs := fs2,
          created := created2
          log := ["FFmpeg error: " ++ cr.stderr]
          writes := [(env.tmpName, contents)], convCalls := [cCall], recogCalls := []
          tmpInputPath := some env.tmpName, wavPath := some wav }
      else
        match env.transcribeRes with
        | .error msg =>
          { res := .error (.pyErr msg), fs := fs2, created := created2
            log := ["Starting transcription..."]
            writes := [(env.tmpName, contents)], convCalls := [cCall]
            recogCalls := [{ audioPath := wav, language := language, fp16 := false }]
            tmpInputPath := some env.tmpName, wavPath := some wav }
        | .ok r =>
          let text := pyStrip r.text
          let detectedLanguage := r.language.getD "unknown"
          let tldr :=
            if 150 < text.length then String.mk (text.data.take 150) ++ "..." else text
          { res := .ok { transcript := text, language := detectedLanguage,
                         tldr := tldr, duration := r.duration }
            fs := fs2, created := created2
            log := ["Starting transcription...",
                    "Transcription complete. Language: " ++ detectedLanguage]
            writes := [(env.tmpName, contents)], convCalls := [cCall]
            recogCalls := [{ audioPath := wav, language := language, fp16 := false }]
            tmpInputPath := some env.tmpName, wavPath := some wav }
  else
    { res := .error (.pyErr env.writeErrMsg), fs := fs1, created := [env.tmpName],
      log := [], writes := [], convCalls := [], recogCalls := []
      tmpInputPath := none, wavPath := none }

/-- Lines 62-140 without the line-70 log: the size check of lines 73-76, then
try / except / finally.  The comparison len(contents)/(1024*1024) > 25 is
computed in binary floating point in the source, but division by the power of
two 2^20 is exact for every byte count below 2^53 and correctly rounded and
monotone above it, so it coincides with the exact integer comparison embedded
here.  The except clause at lines 129-131 catches every Exception — including
the HTTPException raised at line 101, since HTTPException subclasses
Exception — and re-raises HTTPException(500, str(e)).  The finally block runs
afterwards on every path. -/
def transcribeCore (contents : List Nat) (language : Option String) (env : Env)
    (fs0 : List String) : Outcome :=
  if 25 * 1024 * 1024 < contents.length then
    { result := .error (.httpExc 413 "File too large. Max 25MB.")
      fs := fs0, created := [], log := [], writes := [], converterCalls := [],
      recognizerCalls := [] }
  else
    let t := tryBlock contents language env fs0
    let fs1 := cleanup env t.tmpInputPath t.wavPath t.fs
    match t.res with
    | .ok r =>
      { result := .ok r, fs := fs1, created := t.created, log := t.log
        writes := t.writes, converterCalls := t.convCalls,
        recognizerCalls := t.recogCalls }
    | .error e =>
      { result := .error (.httpExc 500 (strExc e)), fs := fs1, created := t.created
        log := t.log ++ ["Transcription error: " ++ strExc e]
        writes := t.writes, converterCalls := t.convCalls,
        recognizerCalls := t.recogCalls }

/-- The transcribe handler, lines 62-140.  The declared filename and content
type of the upload occur in the source only in the log line of line 70, which
is emitted before everything else; the rest of the handler is transcribeCore
applied to the byte content and language hint. -/
def transcribe_audio (filename contentType : String) (contents : List Nat)
    (language : Option String) (env : Env) (fs0 : List String) : Outcome :=
  let core := transcribeCore contents language env fs0
  { core with
    log := ("Received file: " ++ filename ++ ", type: " ++ contentType) :: core.log }

/-- The application-level exception handler of lines 143-149: any exception
reaching the outermost boundary is answered with a fixed 500 body.  (FastAPI
routes HTTPExceptions to its own handler, which answers with the carried
status code and detail; only other exceptions reach this one.) -/
def general_exception_handler (exc : Exc) : Nat × String :=
  (500, "Internal server error")

/-- HTTP response body: a serialized TranscriptionResponse or a detail
message. -/
inductive HttpBody where
  | json (r : TranscriptionResponse)
  | detail (s : String)
deriving DecidableEq, Repr

/-- Status code and body the client receives for a handler outcome: a 200
with the response on success, the carried status and detail for an
HTTPException, and the fixed answer of general_exception_handler for any
other exception. -/
def appResponse (o : Outcome) : Nat × HttpBody :=
  match o.result with
  | .ok r => (200, .json r)
  | .error (.httpExc code d) => (code, .detail d)
  | .error e => ((general_exception_handler e).1, .detail (general_exception_handler e).2)

/-- Python runtime values bound at module scope, as far as the claims need
them: strings and opaque imported objects. -/
inductive PyVal where
  | str (s : String)
  | obj (name : String)
deriving DecidableEq, Repr

/-- Module-global bindings created by lines 1-32 of backend/main.py, in
binding order, as a function of the process environment.  Line 32 binds
MODEL_SIZE to os.getenv("tiny", "base"): the environment variable consulted
is literally named tiny and the default is the string base.  No binding for
the name tiny itself is ever created. -/
def moduleGlobals (osEnv : String → Option String) : List (String × PyVal) :=
  [("os", .obj "module os"), ("tempfile", .obj "module tempfile"),
   ("subprocess", .obj "module subprocess"), ("logging", .obj "module logging"),
   ("Optional", .obj "typing.Optional"), ("FastAPI", .obj "fastapi.FastAPI"),
   ("UploadFile", .obj "fastapi.UploadFile"), ("File", .obj "fastapi.File"),
   ("HTTPException", .obj "fastapi.HTTPException"),
   ("CORSMiddleware", .obj "fastapi CORSMiddleware"),
   ("JSONResponse", .obj "fastapi JSONResponse"),
   ("BaseModel", .obj "pydantic.BaseModel"), ("whisper", .obj "module whisper"),
   ("load_dotenv", .obj "dotenv.load_dotenv"), ("logger", .obj "logger"),
   ("app", .obj "app"),
   ("MODEL_SIZE", .str ((osEnv "tiny").getD "base"))]

/-- Python global-name resolution: a missing name raises NameError. -/
def lookupGlobal (g : List (String × PyVal)) (n : String) : Except Exc PyVal :=
  match g.find? (fun p => p.1 == n) with
  | some p => .ok p.2
  | none => .error (.nameError n)

/-- The string content of a module-global value. -/
def pyValStr : PyVal → String
  | .str s => s
  | .obj n => n

/-- Lines 33-34 of module initialization: both the log f-string and
whisper.load_model evaluate the global name tiny. -/
def moduleInit (osEnv : String → Option String) : Except Exc PyVal :=
  lookupGlobal (moduleGlobals osEnv) "tiny"

/-- The GET / endpoint of lines 48-53: its body evaluates the global name
tiny for the model field. -/
def root (osEnv : String → Option String) : Except Exc HealthResponse :=
  match lookupGlobal (moduleGlobals osEnv) "tiny" with
  | .ok v => .ok { status := "healthy", model := pyValStr v }
  | .error e => .error e

/-- The GET /health endpoint of lines 55-60, identical in body to GET /. -/
def health (osEnv : String → Option String) : Except Exc HealthResponse :=
  match lookupGlobal (moduleGlobals osEnv) "tiny" with
  | .ok v => .ok { status := "healthy", model := pyValStr v }
  | .error e => .error e

/-! Concrete environments used by counterexamples and witnesses. -/

/-- A fully successful environment: unique temporary name, successful write,
ffmpeg exiting 0 and producing the wav file, recognizer returning a text with
surrounding whitespace, a detected language and a duration. -/
def envOk : Env :=
  { tmpName := "/tmp/tmpabc123.ogg", writeOk := true, writeErrMsg := ""
    convRun := .ok { returncode := 0, stderr := "", wavCreated := true }
    transcribeRes := .ok { text := "  hello world  ", language := some "en",
                           duration := some 2 }
    removeOk := fun _ => true }

/-- Environment where writing the uploaded bytes to the temporary file raises
(for example, the disk is full). -/
def envWriteFail : Env :=
  { envOk with writeOk := false, writeErrMsg := "No space left on device" }

/-- Environment where ffmpeg exits with status 1 without producing an output
file. -/
def envConvFail : Env :=
  { envOk with convRun := .ok { returncode := 1, stderr := "Invalid data found",
                                wavCreated := false } }

/-- Environment where ffmpeg exits with status 1, used by the exception
re-wrapping claims. -/
def envConvFail2 : Env :=
  { envOk with convRun := .ok { returncode := 1, stderr := "bad stream",
                                wavCreated := false } }

/-- A transcript of 151 identical characters, longer than the truncation
threshold. -/
def longText : String := String.mk (List.replicate 151 'a')

/-- Environment whose recognizer returns the 151-character transcript. -/
def envLong : Env :=
  { envOk with transcribeRes := .ok { text := longText, language := some "en",
                                      duration := none } }

/-- Environment whose recognizer returns a short transcript that itself ends
in the three-character ellipsis. -/
def envDots : Env :=
  { envOk with transcribeRes := .ok { text := "a...", language := some "en",
                                      duration := none } }

/-- The response the handler produces in the envOk environment. -/
def respOk : TranscriptionResponse :=
  { transcript := "hello world", language := "en", tldr := "hello world",
    duration := some 2 }

/-! Theorems settling the claims. -/

/-- Inversion of the success path: a request returns a response only when the
size check passes, the recognizer returned a result, and the response is the
shape of lines 111-127 applied to that result; the recognizer was invoked on
the wav path with the language hint and fp16 disabled. -/
theorem success_inversion (contents : List Nat) (lang : Option String) (env : Env)
    (fs0 : List String) (resp : TranscriptionResponse)
    (h : (transcribeCore contents lang env fs0).result = .ok resp) :
    ∃ r, env.transcribeRes = .ok r ∧
      resp = { transcript := pyStrip r.text,
               language := r.language.getD "unknown",
               tldr := if 150 < (pyStrip r.text).length
                       then String.mk ((pyStrip r.text).data.take 150) ++ "..."
                       else pyStrip r.text,
               duration := r.duration } ∧
      (transcribeCore contents lang env fs0).recognizerCalls
        = [{ audioPath := wavOf env.tmpName, language := lang, fp16 := false }] ∧
      contents.length ≤ 25 * 1024 * 1024 := by
  obtain ⟨tmp, wok, werr, conv, trs, rm⟩ := env
  by_cases hsz : 25 * 1024 * 1024 < contents.length
  · exfalso; simp [transcribeCore, hsz] at h
  · cases wok
    · exfalso; simp [transcribeCore, tryBlock, hsz] at h
    · rcases conv with msg | ⟨rc, stderr, wavC⟩
      · exfalso; simp [transcribeCore, tryBlock, hsz] at h
      · by_cases hrc : (rc : Int) ≠ 0
        · exfalso; simp [transcribeCore, tryBlock, hsz, hrc] at h
        · rcases trs with msg | ⟨text, lng, dur⟩
          · exfalso; simp [transcribeCore, tryBlock, hsz, hrc] at h
          · refine ⟨⟨text, lng, dur⟩, rfl, ?_, ?_, le_of_not_lt hsz⟩
            · simp [transcribeCore, tryBlock, hsz, hrc] at h
              exact h.symm
            · simp [transcribeCore, tryBlock, hsz, hrc]

/-- C2: for every successful response the tldr equals the transcript when the
transcript has at most 150 characters, equals the first 150 characters of the
transcript followed by the three-character ellipsis when it is longer, and is
never longer than 153 characters. -/
theorem c2_tldr (f ct : String) (contents : List Nat) (lang : Option String)
    (env : Env) (fs0 : List String) (resp : TranscriptionResponse)
    (h : (transcribe_audio f ct contents lang env fs0).result = .ok resp) :
    (resp.transcript.length ≤ 150 → resp.tldr = resp.transcript)
    ∧ (150 < resp.transcript.length →
        resp.tldr = String.mk (resp.transcript.data.take 150) ++ "...")
    ∧ resp.tldr.length ≤ 153 := by
  obtain ⟨r, -, hresp, -, -⟩ := success_inversion contents lang env fs0 resp h
  subst hresp
  dsimp only
  refine ⟨fun hle => if_neg (not_lt.mpr hle), fun hlt => if_pos hlt, ?_⟩
  have hlen : (pyStrip r.text).length = (pyStrip r.text).data.length := rfl
  have hdots : ("..." : String).length = 3 := rfl
  by_cases h150 : 150 < (pyStrip r.text).length
  · rw [if_pos h150]
    rw [hlen] at h150
    simp only [String.length_append, String.length_mk, List.length_take, hdots]
    omega
  · rw [if_neg h150]
    rw [hlen] at h150 ⊢
    omega

/-- C2 witness: in the concrete successful environment envOk the transcript
is the 11-character string hello world and the tldr equals it. -/
theorem c2_tldr_witness :
    respOk.transcript.length ≤ 150 ∧ respOk.tldr = respOk.transcript
    ∧ respOk.tldr.length ≤ 153 := by
  have h := c2_tldr "v.ogg" "audio/ogg" [1, 2, 3] (some "en") envOk [] respOk rfl
  exact ⟨by decide, h.1 (by decide), h.2.2⟩

/-- C9: for every successful request the recognizer is invoked once, on the
wav path, with the request language hint and fp16 disabled, and the response
is shaped from its result: transcript is the stripped text, language is the
detected language or unknown when absent, and the duration field is exactly
the recognizer-reported one (present exactly when reported). -/
theorem c9_recognizer_shaping (f ct : String) (contents : List Nat)
    (lang : Option String) (env : Env) (fs0 : List String)
    (resp : TranscriptionResponse) (r : RecognizerResult)
    (hr : env.transcribeRes = .ok r)
    (h : (transcribe_audio f ct contents lang env fs0).result = .ok resp) :
    (transcribe_audio f ct contents lang env fs0).recognizerCalls
        = [{ audioPath := wavOf env.tmpName, language := lang, fp16 := false }]
    ∧ resp.transcript = pyStrip r.text
    ∧ resp.language = r.language.getD "unknown"
    ∧ resp.duration = r.duration := by
  obtain ⟨r', hr', hresp, hcalls, -⟩ := success_inversion contents lang env fs0 resp h
  rw [hr] at hr'
  injection hr' with e
  subst e
  subst hresp
  exact ⟨hcalls, rfl, rfl, rfl⟩

/-- C9 witness: in envOk with hint fr the recognizer is called on the wav
path with the fr hint and fp16 off, and the response fields are shaped from
the recognizer result. -/
theorem c9_recognizer_shaping_witness :
    (transcribe_audio "v.ogg" "audio/ogg" [1, 2, 3] (some "fr") envOk []).recognizerCalls
        = [{ audioPath := "/tmp/tmpabc123.wav", language := some "fr", fp16 := false }]
    ∧ respOk.transcript = "hello world"
    ∧ respOk.language = "en"
    ∧ respOk.duration = some 2 := by
  have h := c9_recognizer_shaping "v.ogg" "audio/ogg" [1, 2, 3] (some "fr") envOk []
    respOk { text := "  hello world  ", language := some "en", duration := some 2 }
    rfl rfl
  exact ⟨h.1, h.2.1, h.2.2.1, h.2.2.2⟩

/-- C8: the claim says GET / and GET /health return status healthy with the
configured environment-derived model identifier.  In the source the model
field (and module initialization itself, lines 33-34) evaluates the undefined
global name tiny, raising NameError for every process environment; the
binding actually created, MODEL_SIZE, reads the environment variable named
tiny with default base and is never used. -/
theorem c8_undefined_model_name (osEnv : String → Option String) :
    moduleInit osEnv = .error (.nameError "tiny")
    ∧ root osEnv = .error (.nameError "tiny")
    ∧ health osEnv = .error (.nameError "tiny")
    ∧ lookupGlobal (moduleGlobals osEnv) "MODEL_SIZE"
        = .ok (.str ((osEnv "tiny").getD "base")) :=
  ⟨rfl, rfl, rfl, rfl⟩

/-- C4: on a converter failure the client-visible detail is the str of the
internal HTTPException, "500: Audio conversion failed", not exactly
"Audio conversion failed", because the blanket except clause at line 129
catches the HTTPException raised at line 101 and re-raises it with
detail = str(e).  The captured stderr appears in the log and not in the
response. -/
theorem c4_conversion_detail_mangled :
    appResponse (transcribe_audio "x.ogg" "audio/ogg" [1] none envConvFail []) =
      (500, .detail "500: Audio conversion failed")
    ∧ "FFmpeg error: Invalid data found"
        ∈ (transcribe_audio "x.ogg" "audio/ogg" [1] none envConvFail []).log
    ∧ "500: Audio conversion failed" ≠ "Audio conversion failed" :=
  ⟨rfl, by decide, by decide⟩

/-- C5: the structured HTTPException raised inside the try body does not pass
through the except clause unchanged — the clause catches every Exception,
HTTPException included, and re-raises HTTPException(500, str(e)), changing
the detail; the top-level handler does answer every exception with the fixed
Internal server error body. -/
theorem c5_http_errors_rewrapped :
    (tryBlock [1] none envConvFail2 []).res
        = .error (.httpExc 500 "Audio conversion failed")
    ∧ (transcribe_audio "x.ogg" "audio/ogg" [1] none envConvFail2 []).result
        = .error (.httpExc 500 "500: Audio conversion failed")
    ∧ ∀ e : Exc, general_exception_handler e = (500, "Internal server error") :=
  ⟨rfl, rfl, fun _ => rfl⟩

/-- C1 counterexample: when writing the uploaded bytes to the first temporary
file raises, the file NamedTemporaryFile already created is never removed —
tmp_input_path is still None in the finally block — even though os.remove
succeeds on every path, so a temporary file created by the request survives
the request. -/
theorem c1_counterexample :
    "/tmp/tmpabc123.ogg"
        ∈ (transcribe_audio "voice.ogg" "audio/ogg" [1] none envWriteFail []).created
    ∧ "/tmp/tmpabc123.ogg"
        ∈ (transcribe_audio "voice.ogg" "audio/ogg" [1] none envWriteFail []).fs
    ∧ envWriteFail.removeOk "/tmp/tmpabc123.ogg" = true :=
  ⟨by decide, by decide, rfl⟩

set_option maxRecDepth 40000 in
/-- C3 counterexample: for a 151-character transcript the tldr (first 150
characters plus the ellipsis) is not a prefix of the transcript; and for the
short transcript "a..." the tldr ends in the ellipsis although the transcript
length is at most 150, refuting the claimed "ending in the ellipsis if and
only if the transcript exceeds 150 characters". -/
theorem c3_counterexample :
    (transcribe_audio "a.ogg" "audio/ogg" [1] none envLong []).result =
      .ok { transcript := longText, language := "en",
            tldr := String.mk (List.replicate 150 'a') ++ "...", duration := none }
    ∧ (String.mk (List.replicate 150 'a') ++ "...").data.isPrefixOf longText.data
        = false
    ∧ (transcribe_audio "a.ogg" "audio/ogg" [1] none envDots []).result =
      .ok { transcript := "a...", language := "en", tldr := "a...", duration := none }
    ∧ List.isSuffixOf ['.', '.', '.'] "a...".data = true
    ∧ "a...".length ≤ 150 :=
  ⟨rfl, by decide, rfl, by decide, by decide⟩

/-- C10: the declared filename and content type influence only the line-70
log line — the result, file-system effect, created entries, written bytes
and external calls are identical for any two uploads with equal byte
contents and language hints. -/
theorem c10_filename_only_logged (f1 ct1 f2 ct2 : String) (contents : List Nat)
    (lang : Option String) (env : Env) (fs0 : List String) :
    (transcribe_audio f1 ct1 contents lang env fs0).result
        = (transcribe_audio f2 ct2 contents lang env fs0).result
    ∧ (transcribe_audio f1 ct1 contents lang env fs0).fs
        = (transcribe_audio f2 ct2 contents lang env fs0).fs
    ∧ (transcribe_audio f1 ct1 contents lang env fs0).created
        = (transcribe_audio f2 ct2 contents lang env fs0).created
    ∧ (transcribe_audio f1 ct1 contents lang env fs0).writes
        = (transcribe_audio f2 ct2 contents lang env fs0).writes
    ∧ (transcribe_audio f1 ct1 contents lang env fs0).converterCalls
        = (transcribe_audio f2 ct2 contents lang env fs0).converterCalls
    ∧ (transcribe_audio f1 ct1 contents lang env fs0).recognizerCalls
        = (transcribe_audio f2 ct2 contents lang env fs0).recognizerCalls
    ∧ (transcribe_audio f1 ct1 contents lang env fs0).log
        = ("Received file: " ++ f1 ++ ", type: " ++ ct1)
            :: (transcribeCore contents lang env fs0).log
    ∧ (transcribe_audio f2 ct2 contents lang env fs0).log
        = ("Received file: " ++ f2 ++ ", type: " ++ ct2)
            :: (transcribeCore contents lang env fs0).log :=
  ⟨rfl, rfl, rfl, rfl, rfl, rfl, rfl, rfl⟩

/-- Helper: the complete outcome of an oversized request — the 413 error
before any write, creation or external call. -/
theorem oversize_outcome (f ct : String) (contents : List Nat)
    (lang : Option String) (env : Env) (fs0 : List String)
    (h : 25 * 1024 * 1024 < contents.length) :
    transcribe_audio f ct contents lang env fs0 =
      { result := .error (.httpExc 413 "File too large. Max 25MB."), fs := fs0,
        created := [], log := ["Received file: " ++ f ++ ", type: " ++ ct],
        writes := [], converterCalls := [], recognizerCalls := [] } := by
  simp [transcribe_audio, transcribeCore, h]

/-- C6: the handler raises HTTP 413 exactly when the fully-read byte content
is strictly larger than 25 * 2^20 bytes; the rejected request performs no
file write, no file creation and no converter call, and a request at or
below the bound is never answered 413. -/
theorem c6_size_check (f ct : String) (contents : List Nat) (lang : Option String)
    (env : Env) (fs0 : List String) :
    (25 * 1024 * 1024 < contents.length →
      transcribe_audio f ct contents lang env fs0 =
        { result := .error (.httpExc 413 "File too large. Max 25MB."), fs := fs0,
          created := [], log := ["Received file: " ++ f ++ ", type: " ++ ct],
          writes := [], converterCalls := [], recognizerCalls := [] })
    ∧ (contents.length ≤ 25 * 1024 * 1024 →
        ∀ d, (transcribe_audio f ct contents lang env fs0).result
          ≠ .error (.httpExc 413 d)) := by
  constructor
  · intro hsz
    exact oversize_outcome f ct contents lang env fs0 hsz
  · intro hsz d
    obtain ⟨tmp, wok, werr, conv, trs, rm⟩ := env
    have hsz' : ¬(25 * 1024 * 1024 < contents.length) := not_lt.mpr hsz
    cases wok
    · simp [transcribe_audio, transcribeCore, tryBlock, hsz', strExc]
    · rcases conv with msg | ⟨rc, stderr, wavC⟩
      · simp [transcribe_audio, transcribeCore, tryBlock, hsz', strExc]
      · by_cases hrc : (rc : Int) ≠ 0
        · simp [transcribe_audio, transcribeCore, tryBlock, hsz', hrc, strExc]
        · rcases trs with msg | r
          · simp [transcribe_audio, transcribeCore, tryBlock, hsz', hrc, strExc]
          · simp [transcribe_audio, transcribeCore, tryBlock, hsz', hrc]

/-- C6 witness: an upload one byte over the bound is rejected with 413 before
any write, creation or converter call, and an upload of exactly 25 MiB is
not rejected by the size check. -/
theorem c6_size_check_witness :
    transcribe_audio "big.ogg" "audio/ogg" (List.replicate (25 * 1024 * 1024 + 1) 0)
        none envOk []
      = { result := .error (.httpExc 413 "File too large. Max 25MB."), fs := [],
          created := [], log := ["Received file: big.ogg, type: audio/ogg"],
          writes := [], converterCalls := [], recognizerCalls := [] }
    ∧ (transcribe_audio "ok.ogg" "audio/ogg" (List.replicate (25 * 1024 * 1024) 0)
        none envOk []).result
      ≠ .error (.httpExc 413 "File too large. Max 25MB.") := by
  constructor
  · exact (c6_size_check "big.ogg" "audio/ogg" _ none envOk []).1
      (by rw [List.length_replicate]; omega)
  · exact (c6_size_check "ok.ogg" "audio/ogg" _ none envOk []).2
      (by rw [List.length_replicate]) _

/-- C7 counterexample: an upload over the size bound creates no temporary
filesystem entry at all, and a request whose conversion fails without ffmpeg
producing its output file creates exactly one entry — both refuting the
claimed exactly-two-per-request. -/
theorem c7_counterexample :
    (transcribe_audio "big.ogg" "audio/ogg" (List.replicate (25 * 1024 * 1024 + 1) 0)
        none envOk []).created = []
    ∧ (transcribe_audio "x.ogg" "audio/ogg" [1] none envConvFail []).created
        = ["/tmp/tmpabc123.ogg"] := by
  constructor
  · have h : 25 * 1024 * 1024 <
        (List.replicate (25 * 1024 * 1024 + 1) (0 : Nat)).length := by
      rw [List.length_replicate]; omega
    rw [oversize_outcome "big.ogg" "audio/ogg" _ none envOk [] h]
  · rfl

/-- C7 amended: a request rejected by the size check creates no temporary
entry.  Past the size check the created entries are exactly characterized:
the request always creates the saved-upload file (the created list is
[tmpName] or [tmpName, wav], never empty), and it additionally creates the
converter output entry exactly when the write succeeded and the ffmpeg run
produced its output file — hence one or two entries, and exactly two on
every successful request (assuming a zero-exit-status converter run produces
its output file). -/
theorem c7_created_entries (f ct : String) (contents : List Nat)
    (lang : Option String) (env : Env) (fs0 : List String)
    (hconv : ∀ cr, env.convRun = .ok cr → cr.returncode = 0 → cr.wavCreated = true) :
    (25 * 1024 * 1024 < contents.length →
      (transcribe_audio f ct contents lang env fs0).created = [])
    ∧ (contents.length ≤ 25 * 1024 * 1024 →
        ((transcribe_audio f ct contents lang env fs0).created = [env.tmpName]
          ∨ (transcribe_audio f ct contents lang env fs0).created
              = [env.tmpName, wavOf env.tmpName])
        ∧ ((transcribe_audio f ct contents lang env fs0).created
              = [env.tmpName, wavOf env.tmpName]
            ↔ env.writeOk = true
              ∧ ∃ cr, env.convRun = .ok cr ∧ cr.wavCreated = true)
        ∧ (∀ resp, (transcribe_audio f ct contents lang env fs0).result = .ok resp →
            (transcribe_audio f ct contents lang env fs0).created
              = [env.tmpName, wavOf env.tmpName])) := by
  obtain ⟨tmp, wok, werr, conv, trs, rm⟩ := env
  by_cases hsz : 25 * 1024 * 1024 < contents.length
  · refine ⟨fun _ => ?_, fun hle => absurd hsz (not_lt.mpr hle)⟩
    simp [transcribe_audio, transcribeCore, hsz]
  · refine ⟨fun h => absurd h hsz, fun _ => ⟨?_, ?_, ?_⟩⟩
    · cases wok
      · left; simp [transcribe_audio, transcribeCore, tryBlock, hsz]
      · rcases conv with msg | ⟨rc, stderr, wavC⟩
        · left; simp [transcribe_audio, transcribeCore, tryBlock, hsz]
        · rcases Decidable.em ((rc : Int) ≠ 0) with hrc | hrc <;>
            rcases trs with msg | r <;> cases wavC <;>
            simp [transcribe_audio, transcribeCore, tryBlock, hsz, hrc]
    · cases wok
      · simp [transcribe_audio, transcribeCore, tryBlock, hsz]
      · rcases conv with msg | ⟨rc, stderr, wavC⟩
        · simp [transcribe_audio, transcribeCore, tryBlock, hsz]
        · rcases Decidable.em ((rc : Int) ≠ 0) with hrc | hrc <;>
            rcases trs with msg | r <;> cases wavC <;>
            simp [transcribe_audio, transcribeCore, tryBlock, hsz, hrc]
    · intro resp hresp
      cases wok
      · exfalso; simp [transcribe_audio, transcribeCore, tryBlock, hsz] at hresp
      · rcases conv with msg | ⟨rc, stderr, wavC⟩
        · exfalso; simp [transcribe_audio, transcribeCore, tryBlock, hsz] at hresp
        · by_cases hrc : (rc : Int) ≠ 0
          · exfalso
            simp [transcribe_audio, transcribeCore, tryBlock, hsz, hrc] at hresp
          · rcases trs with msg | r
            · exfalso
              simp [transcribe_audio, transcribeCore, tryBlock, hsz, hrc] at hresp
            · have hwav : wavC = true := by
                exact hconv ⟨rc, stderr, wavC⟩ rfl (not_ne_iff.mp hrc)
              subst hwav
              simp [transcribe_audio, transcribeCore, tryBlock, hsz, hrc]

/-- C7 witness: a concrete small upload in the successful environment passes
the size check and creates exactly the two temporary entries, the saved
upload and the wav file. -/
theorem c7_created_entries_witness :
    (transcribe_audio "v.ogg" "audio/ogg" [1] none envOk []).created
      = ["/tmp/tmpabc123.ogg", "/tmp/tmpabc123.wav"] := by
  have hconv : ∀ cr, envOk.convRun = .ok cr → cr.returncode = 0 →
      cr.wavCreated = true := by
    intro cr hcr _
    cases hcr
    rfl
  exact ((c7_created_entries "v.ogg" "audio/ogg" [1] none envOk [] hconv).2
    (by decide)).2.2 respOk rfl

/-- C1 amended: on every exit path of a request past the size check in which
the write of the uploaded bytes succeeded, every temporary file the request
created is removed by the end of the request (the file system returns to its
initial state), provided deletion succeeds and the temporary names are fresh;
and the cleanup step never changes the outcome of the request — the result is
the same for every behavior of os.remove.  (When the write itself raises, the
already-created first temporary file leaks; see the counterexample.) -/
theorem c1_cleanup (f ct : String) (contents : List Nat) (lang : Option String)
    (env : Env) (fs0 : List String)
    (hw : env.writeOk = true)
    (hrm : ∀ p, env.removeOk p = true)
    (h1 : env.tmpName ∉ fs0)
    (h2 : wavOf env.tmpName ∉ fs0)
    (hne : wavOf env.tmpName ≠ env.tmpName) :
    (transcribe_audio f ct contents lang env fs0).fs = fs0
    ∧ (∀ p ∈ (transcribe_audio f ct contents lang env fs0).created,
        p ∉ (transcribe_audio f ct contents lang env fs0).fs)
    ∧ (∀ rm' : String → Bool,
        (transcribe_audio f ct contents lang { env with removeOk := rm' } fs0).result
          = (transcribe_audio f ct contents lang env fs0).result) := by
  obtain ⟨tmp, wok, werr, conv, trs, rm⟩ := env
  simp only at hw h1 h2 hne hrm
  subst hw
  by_cases hsz : 25 * 1024 * 1024 < contents.length
  · refine ⟨?_, ?_, ?_⟩ <;> simp [transcribe_audio, transcribeCore, hsz]
  · rcases conv with msg | ⟨rc, stderr, wavC⟩
    · refine ⟨?_, ?_, ?_⟩ <;>
        simp [transcribe_audio, transcribeCore, tryBlock, cleanup, cleanup1,
              fsCreate, hsz, h1, h2, hne, hrm, List.erase_cons_head,
              List.erase_cons_tail]
    · rcases Decidable.em ((rc : Int) ≠ 0) with hrc | hrc <;>
        rcases trs with msg | r <;> cases wavC <;>
        (refine ⟨?_, ?_, ?_⟩ <;>
          simp [transcribe_audio, transcribeCore, tryBlock, cleanup, cleanup1,
                fsCreate, hsz, hrc, h1, h2, hne, hrm, List.erase_cons_head,
                List.erase_cons_tail])

/-- C1 witness: in the concrete successful environment the request leaves the
initially empty file system empty, neither created file survives, and the
result does not depend on the behavior of os.remove. -/
theorem c1_cleanup_witness :
    (transcribe_audio "v.ogg" "audio/ogg" [1] none envOk []).fs = []
    ∧ "/tmp/tmpabc123.ogg" ∉ (transcribe_audio "v.ogg" "audio/ogg" [1] none envOk []).fs
    ∧ (transcribe_audio "v.ogg" "audio/ogg" [1] none
          { envOk with removeOk := fun _ => false } []).result
        = (transcribe_audio "v.ogg" "audio/ogg" [1] none envOk []).result := by
  have h := c1_cleanup "v.ogg" "audio/ogg" [1] none envOk [] rfl (fun _ => rfl)
    (by decide) (by decide) (by decide)
  exact ⟨h.1, fun hm => h.2.1 "/tmp/tmpabc123.ogg" (by decide) hm,
    h.2.2 (fun _ => false)⟩

/-- C3 amended: every successful response has status success; the tldr equals
the transcript (hence is a prefix of it) whenever the transcript has at most
150 characters, and in general the first 150 characters of the tldr are a
prefix of the transcript; the tldr is never longer than 153 characters and
ends in the three-character ellipsis whenever the transcript is longer than
150 characters. -/
theorem c3_shape (f ct : String) (contents : List Nat) (lang : Option String)
    (env : Env) (fs0 : List String) (resp : TranscriptionResponse)
    (hsize : contents.length ≤ 25 * 1024 * 1024)
    (h : (transcribe_audio f ct contents lang env fs0).result = .ok resp) :
    resp.status = "success"
    ∧ (resp.tldr.data.take 150).isPrefixOf resp.transcript.data = true
    ∧ (resp.transcript.length ≤ 150 → resp.tldr = resp.transcript)
    ∧ resp.tldr.length ≤ 153
    ∧ (150 < resp.transcript.length →
        List.isSuffixOf ['.', '.', '.'] resp.tldr.data = true) := by
  obtain ⟨r, -, hresp, -, -⟩ := success_inversion contents lang env fs0 resp h
  subst hresp
  dsimp only
  have hlen : (pyStrip r.text).length = (pyStrip r.text).data.length := rfl
  have hdots : ("..." : String).length = 3 := rfl
  have hdata : ("..." : String).data = ['.', '.', '.'] := rfl
  by_cases h150 : 150 < (pyStrip r.text).length
  · rw [if_pos h150]
    have h150' : 150 ≤ (pyStrip r.text).data.length := by rw [← hlen]; omega
    refine ⟨rfl, ?_, fun hle => absurd h150 (not_lt.mpr hle), ?_, fun _ => ?_⟩
    · have hX : ((String.mk ((pyStrip r.text).data.take 150)).data).length = 150 := by
        show (((pyStrip r.text).data.take 150)).length = 150
        rw [List.length_take]
        exact Nat.min_eq_left h150'
      simp only [List.isPrefixOf_iff_prefix, String.data_append]
      rw [List.take_left' hX]
      exact List.take_prefix 150 _
    · rw [hlen] at h150
      simp only [String.length_append, String.length_mk, List.length_take, hdots]
      omega
    · simp [List.isSuffixOf_iff_suffix, String.data_append, hdata,
            List.suffix_append]
  · rw [if_neg h150]
    refine ⟨rfl, ?_, fun _ => rfl, ?_, fun hlt => absurd hlt h150⟩
    · simp only [List.isPrefixOf_iff_prefix]
      exact List.take_prefix 150 _
    · rw [hlen] at h150 ⊢
      omega

/-- C3 witness: a concrete small upload in envOk succeeds; its tldr equals
the transcript, the first 150 characters of the tldr are a prefix of the
transcript, and its length is below every bound. -/
theorem c3_shape_witness :
    respOk.status = "success"
    ∧ (respOk.tldr.data.take 150).isPrefixOf respOk.transcript.data = true
    ∧ respOk.tldr = respOk.transcript
    ∧ respOk.tldr.length ≤ 153 := by
  have h := c3_shape "v.ogg" "audio/ogg" [1, 2, 3] (some "en") envOk [] respOk
    (by decide) rfl
  exact ⟨h.1, h.2.1, h.2.2.1 (by decide), h.2.2.2.1⟩

end NeuroTrain
